import Mathlib

/-!
Verification development for `asg-ebs` (`main.go`), a run-to-completion tool
that finds or creates an EBS volume, attaches it, formats it on first use and
mounts it.

The orchestrator `runAsgEbs` calls the `AsgEbs` interface; we embed it as a
function over an environment of interface-call responses, returning the run
outcome (success, or fatal termination via `log.Fatal`) together with the
trace of interface calls made, each event recording the arguments passed and
the response received.  The concrete `AwsAsgEbs` methods (`findVolume`,
`findSnapshot`, `createVolume`, `waitUntilVolumeAvailable`, `makeFileSystem`,
`checkMountPoint`, `waitForFile`) are embedded separately over the responses
of the AWS control plane and the local OS.
-/

namespace AsgEbs

/-- Result of a whole run of `runAsgEbs`: the Go code either falls off the end
of the function (success) or calls `log.Fatal`, which terminates the process
with a non-zero status. -/
inductive Outcome where
  | success
  | fatal
deriving DecidableEq

instance {ε α : Type} [DecidableEq ε] [DecidableEq α] : DecidableEq (Except ε α) := fun x y =>
  match x, y with
  | .error a, .error b => decidable_of_iff (a = b) (by simp)
  | .ok a, .ok b => decidable_of_iff (a = b) (by simp)
  | .error _, .ok _ => isFalse (by simp)
  | .ok _, .error _ => isFalse (by simp)

/-- One call made by `runAsgEbs` on the `AsgEbs` interface, recording the
arguments of the call and the response received.  `Except Unit` models a Go
`error` result (`.error ()` = non-nil error); a `Bool` result field records
`true` when the call returned a nil error. -/
inductive Event where
  | checkDevice (device : String) (ok : Bool)
  | checkMountPoint (mountPoint : String) (ok : Bool)
  | findVolume (tagKey tagValue : String) (res : Except Unit (Option String))
  | attachVolume (volumeId attachAs : String) (deleteOnTermination : Bool) (ok : Bool)
  | findSnapshot (tagKey tagValue : String) (res : Except Unit (Option String))
  | createVolume (size : Int) (name volumeType : String)
      (tags : List (String × String)) (snapshotId : Option String)
      (res : Except Unit String)
  | waitUntilVolumeAvailable (volumeId : String) (ok : Bool)
  | makeFileSystem (device : String) (inodeRatio : Int) (volumeId : String) (ok : Bool)
  | mountVolume (device mountPoint : String) (ok : Bool)
deriving DecidableEq

/-- The resolved CLI configuration (`Config` in `main.go`); pointers are
dereferenced, so fields are plain values. -/
structure Config where
  tagKey : String
  tagValue : String
  attachAs : String
  mountPoint : String
  createSize : Int
  mkfsInodeRatio : Int
  createName : String
  createVolumeType : String
  createTags : List (String × String)
  deleteOnTermination : Bool
  snapshotName : String

/-- Responses of the `AsgEbs` interface for one run.  `findVolumeRes i` is the
response to the `i`-th `findVolume` call (the loop counter `i` of the reuse
loop, starting at 1); `attachVolumeOk k` tells whether the `k`-th
`attachVolume` call (counting from 0 across the whole run) returns a nil
error.  The remaining operations are called at most once each. -/
structure Env where
  checkDeviceOk : Bool
  checkMountPointOk : Bool
  findVolumeRes : Nat → Except Unit (Option String)
  attachVolumeOk : Nat → Bool
  findSnapshotRes : Except Unit (Option String)
  createVolumeRes : Except Unit String
  waitAvailableOk : Bool
  makeFileSystemOk : Bool
  mountVolumeOk : Bool

/-- The reuse loop of `runAsgEbs` (`for i := 1; i <= 10; i++`).  `r` is the
number of iterations left, `i` the current loop counter, `ac` the number of
`attachVolume` calls made so far, `vid` the current value of the Go variable
`volumeId` (reassigned by every `findVolume` call, and *not* cleared when a
subsequent attach fails).  Returns `.error evs` when `findVolume` returns an
error (the Go code calls `log.Fatal`), and otherwise `.ok (volumeId, ac,
evs)` with the value of `volumeId` after the loop. -/
def reuseLoop (env : Env) (cfg : Config) :
    Nat → Nat → Nat → Option String → Except (List Event) (Option String × Nat × List Event)
  | 0, _, ac, vid => .ok (vid, ac, [])
  | r + 1, i, ac, _ =>
    match env.findVolumeRes i with
    | .error e => .error [Event.findVolume cfg.tagKey cfg.tagValue (.error e)]
    | .ok none => .ok (none, ac, [Event.findVolume cfg.tagKey cfg.tagValue (.ok none)])
    | .ok (some v) =>
      let atOk := env.attachVolumeOk ac
      let head := [Event.findVolume cfg.tagKey cfg.tagValue (.ok (some v)),
                   Event.attachVolume v cfg.attachAs cfg.deleteOnTermination atOk]
      if atOk then
        .ok (some v, ac + 1, head)
      else
        match reuseLoop env cfg r (i + 1) (ac + 1) (some v) with
        | .error evs => .error (head ++ evs)
        | .ok (vid, ac', evs) => .ok (vid, ac', head ++ evs)

/-- The final `mountVolume` step of `runAsgEbs`. -/
def mountStep (env : Env) (cfg : Config) (dev : String) : Outcome × List Event :=
  (if env.mountVolumeOk then .success else .fatal,
   [Event.mountVolume dev cfg.mountPoint env.mountVolumeOk])

/-- The tail of `runAsgEbs` after a volume id is in hand: format the device
when `createFileSystemOnVolume` is set (fatal on failure), then mount. -/
def finishRun (env : Env) (cfg : Config) (dev : String)
    (createFileSystemOnVolume : Bool) (vid : String) : Outcome × List Event :=
  if createFileSystemOnVolume then
    if env.makeFileSystemOk then
      let m := mountStep env cfg dev
      (m.1, Event.makeFileSystem dev cfg.mkfsInodeRatio vid true :: m.2)
    else
      (.fatal, [Event.makeFileSystem dev cfg.mkfsInodeRatio vid false])
  else
    mountStep env cfg dev

/-- The creation fallback of `runAsgEbs` (`if volumeId == nil` block):
create a volume (fatal on error), wait until available (fatal on timeout),
set `createFileSystemOnVolume` exactly when no snapshot id is in hand, attach
(fatal on error), then format/mount via `finishRun`. -/
def createPath (env : Env) (cfg : Config) (dev : String)
    (snapshotId : Option String) (ac : Nat) : Outcome × List Event :=
  match env.createVolumeRes with
  | .error e =>
    (.fatal, [Event.createVolume cfg.createSize cfg.createName cfg.createVolumeType
                cfg.createTags snapshotId (.error e)])
  | .ok vid =>
    let ev0 := Event.createVolume cfg.createSize cfg.createName cfg.createVolumeType
                 cfg.createTags snapshotId (.ok vid)
    if env.waitAvailableOk then
      let atOk := env.attachVolumeOk ac
      if atOk then
        let f := finishRun env cfg dev snapshotId.isNone vid
        (f.1, ev0 :: Event.waitUntilVolumeAvailable vid true ::
              Event.attachVolume vid cfg.attachAs cfg.deleteOnTermination true :: f.2)
      else
        (.fatal, [ev0, Event.waitUntilVolumeAvailable vid true,
                  Event.attachVolume vid cfg.attachAs cfg.deleteOnTermination false])
    else
      (.fatal, [ev0, Event.waitUntilVolumeAvailable vid false])

/-- The orchestrator `runAsgEbs` of `main.go`: precondition checks (fatal on
violation), then either the reuse loop (no snapshot name configured) or the
snapshot lookup, then the creation fallback if the Go variable `volumeId` is
nil, then conditional formatting and the mount.  Returns the outcome and the
trace of interface calls. -/
def runAsgEbs (env : Env) (cfg : Config) : Outcome × List Event :=
  let dev := "/dev/" ++ cfg.attachAs
  if env.checkDeviceOk then
    if env.checkMountPointOk then
      let pre := [Event.checkDevice dev true, Event.checkMountPoint cfg.mountPoint true]
      if cfg.snapshotName = "" then
        match reuseLoop env cfg 10 1 0 none with
        | .error evs => (.fatal, pre ++ evs)
        | .ok (some v, _, evs) =>
          let f := finishRun env cfg dev false v
          (f.1, pre ++ evs ++ f.2)
        | .ok (none, ac, evs) =>
          let c := createPath env cfg dev none ac
          (c.1, pre ++ evs ++ c.2)
      else
        match env.findSnapshotRes with
        | .error e =>
          (.fatal, pre ++ [Event.findSnapshot "Name" cfg.snapshotName (.error e)])
        | .ok s =>
          let c := createPath env cfg dev s 0
          (c.1, pre ++ Event.findSnapshot "Name" cfg.snapshotName (.ok s) :: c.2)
    else
      (.fatal, [Event.checkDevice dev true, Event.checkMountPoint cfg.mountPoint false])
  else
    (.fatal, [Event.checkDevice dev false])

/-- Is this event a `findVolume` call? -/
def Event.isFindVolume : Event → Bool
  | .findVolume .. => true
  | _ => false

/-- Is this event an `attachVolume` call? -/
def Event.isAttachVolume : Event → Bool
  | .attachVolume .. => true
  | _ => false

/-- Is this event an `attachVolume` call that returned a nil error? -/
def Event.isSuccessfulAttach : Event → Bool
  | .attachVolume _ _ _ ok => ok
  | _ => false

/-- Is this event a `createVolume` call? -/
def Event.isCreateVolume : Event → Bool
  | .createVolume .. => true
  | _ => false

/-- Is this event a `createVolume` call with a snapshot id? -/
def Event.isCreateVolumeWithSnap : Event → Bool
  | .createVolume _ _ _ _ (some _) _ => true
  | _ => false

/-- Is this event a `createVolume` call without a snapshot id? -/
def Event.isCreateVolumeNoSnap : Event → Bool
  | .createVolume _ _ _ _ none _ => true
  | _ => false

/-- Is this event a `makeFileSystem` call? -/
def Event.isMakeFileSystem : Event → Bool
  | .makeFileSystem .. => true
  | _ => false

/-- Does this interface call issue requests to the EC2 control plane?
(`findVolume`, `findSnapshot`, `createVolume`, `waitUntilVolumeAvailable` are
describe/create calls; `attachVolume` issues AttachVolume, a wait and
optionally ModifyInstanceAttribute; `makeFileSystem` issues CreateTags.
`checkDevice`, `checkMountPoint` and `mountVolume` are purely local OS
operations.) -/
def Event.isControlPlaneCall : Event → Bool
  | .findVolume .. => true
  | .findSnapshot .. => true
  | .createVolume .. => true
  | .attachVolume .. => true
  | .waitUntilVolumeAvailable .. => true
  | .makeFileSystem .. => true
  | _ => false

/-- A filter of an EC2 describe request (`ec2.Filter`): a name and a list of
values. -/
structure Ec2Filter where
  name : String
  values : List String
deriving DecidableEq

/-- The filter list `findVolume` sends in its `DescribeVolumes` request:
tag:`{key}`=`{value}` AND tag:filesystem="true" AND status="available" AND
availability-zone = the local zone. -/
def findVolumeFilters (tagKey tagValue az : String) : List Ec2Filter :=
  [⟨"tag:" ++ tagKey, [tagValue]⟩,
   ⟨"tag:filesystem", ["true"]⟩,
   ⟨"status", ["available"]⟩,
   ⟨"availability-zone", [az]⟩]

/-- `AwsAsgEbs.findVolume`: issue `DescribeVolumes` with the four filters and
return the first volume id, `none` for an empty result, or the error of the
control-plane call.  `describeVolumes` is the control plane's response (the
result volumes represented by their ids). -/
def AwsAsgEbs.findVolume (describeVolumes : List Ec2Filter → Except Unit (List String))
    (az tagKey tagValue : String) : Except Unit (Option String) :=
  match describeVolumes (findVolumeFilters tagKey tagValue az) with
  | .error e => .error e
  | .ok [] => .ok none
  | .ok (v :: _) => .ok (some v)

/-- An EC2 snapshot as used by `findSnapshot`: its id and its `StartTime`
(creation timestamp, modelled as an integer time value). -/
structure Snapshot where
  snapshotId : String
  startTime : Int
deriving DecidableEq

/-- The comparison `sort.Reverse(ByStartTime(...))` sorts by: `a` before `b`
when `b.StartTime ≤ a.StartTime` (descending creation time). -/
def byStartTimeDesc (a b : Snapshot) : Bool :=
  decide (b.startTime ≤ a.startTime)

/-- `sort.Sort(sort.Reverse(ByStartTime(snapshots)))`: some permutation of the
input sorted by descending creation timestamp (Go's sort is unstable; any
order among ties is acceptable, and `findSnapshot` only uses the head). -/
def sortSnapshotsDesc (l : List Snapshot) : List Snapshot :=
  l.mergeSort byStartTimeDesc

/-- The filter list `findSnapshot` sends in its `DescribeSnapshots` request:
tag:`{key}`=`{value}` AND status="completed". -/
def findSnapshotFilters (tagKey tagValue : String) : List Ec2Filter :=
  [⟨"tag:" ++ tagKey, [tagValue]⟩,
   ⟨"status", ["completed"]⟩]

/-- `AwsAsgEbs.findSnapshot`: issue `DescribeSnapshots` with the two filters,
sort the results by descending creation time, and return the first snapshot's
id, `none` for an empty result, or the error of the control-plane call. -/
def AwsAsgEbs.findSnapshot (describeSnapshots : List Ec2Filter → Except Unit (List Snapshot))
    (tagKey tagValue : String) : Except Unit (Option String) :=
  match describeSnapshots (findSnapshotFilters tagKey tagValue) with
  | .error e => .error e
  | .ok snaps =>
    match sortSnapshotsDesc snaps with
    | [] => .ok none
    | s :: _ => .ok (some s.snapshotId)

/-- A request issued against the EC2 control plane or the local OS by the
`AwsAsgEbs` methods modelled below.  `deleteVolumeCall` is the EC2
`DeleteVolume` request; the code never issues it (no rollback), the
constructor exists so that its absence from call traces is expressible. -/
inductive AwsCall where
  | createVolumeCall (az : String) (size : Int) (volumeType : String)
      (snapshotId : Option String)
  | createTagsCall (resource : String) (tags : List (String × String))
  | deleteVolumeCall (volumeId : String)
  | runMkfs (device : String) (inodeRatio : Int)
deriving DecidableEq

/-- Control-plane and OS responses consumed by `AwsAsgEbs.createVolume` and
`AwsAsgEbs.makeFileSystem`: the result of the `CreateVolume` request (the new
volume id, or an error), and whether the `CreateTags` request and the
`mkfs.ext4` invocation succeed. -/
structure AwsEnv where
  createVolumeRes : Except Unit String
  createTagsOk : Bool
  mkfsOk : Bool

/-- `AwsAsgEbs.createVolume`: create a volume in the local zone (restoring
from `snapshotId` when given), then apply the tags `Name`=`createName`,
`filesystem`="true" if a snapshot was used else "false", plus the
caller-supplied tags.  Returns `((volumeId?, errored), calls)`: the Go pair
`(*string, error)` (note the volume id is returned even when `CreateTags`
fails) together with the list of control-plane requests issued. -/
def AwsAsgEbs.createVolume (env : AwsEnv) (az : String) (createSize : Int)
    (createName createVolumeType : String) (createTags : List (String × String))
    (snapshotId : Option String) : (Option String × Bool) × List AwsCall :=
  let filesystem := if snapshotId.isSome then "true" else "false"
  match env.createVolumeRes with
  | .error _ => ((none, true), [AwsCall.createVolumeCall az createSize createVolumeType snapshotId])
  | .ok vid =>
    let tags := [("Name", createName), ("filesystem", filesystem)] ++ createTags
    ((some vid, !env.createTagsOk),
     [AwsCall.createVolumeCall az createSize createVolumeType snapshotId,
      AwsCall.createTagsCall vid tags])

/-- `AwsAsgEbs.makeFileSystem`: run `mkfs.ext4 -i {ratio} {device}`; on
success, tag the volume `filesystem`="true" via `CreateTags`.  Returns
`(errored, calls)`: whether the method returned a non-nil error, and the OS /
control-plane requests issued (the tag request is issued only after a
successful format). -/
def AwsAsgEbs.makeFileSystem (env : AwsEnv) (device : String) (mkfsInodeRatio : Int)
    (volumeId : String) : Bool × List AwsCall :=
  if env.mkfsOk then
    (!env.createTagsOk,
     [AwsCall.runMkfs device mkfsInodeRatio,
      AwsCall.createTagsCall volumeId [("filesystem", "true")]])
  else
    (true, [AwsCall.runMkfs device mkfsInodeRatio])

/-- How the SDK call `svc.WaitUntilVolumeAvailable` can fail: the waiter gave
up after its deadline, or an underlying describe request failed. -/
inductive WaitFailure where
  | deadlineExceeded
  | requestError
deriving DecidableEq

/-- The error kinds the spec distinguishes for availability waiting: the
`VolumeTimeout` kind (`createFileSystemOnVolumeTimeout` in the code) and a
generic control-plane error kind. -/
inductive VolumeError where
  | volumeTimeout
  | controlPlane
deriving DecidableEq

/-- `AwsAsgEbs.waitUntilVolumeAvailable`: call the SDK waiter and, if it
returned any non-nil error, return `&createFileSystemOnVolumeTimeout{}`
(the `VolumeTimeout` kind); the identity of the underlying error is
discarded. -/
def AwsAsgEbs.waitUntilVolumeAvailable (waitRes : Except WaitFailure Unit) :
    Option VolumeError :=
  match waitRes with
  | .error _ => some VolumeError.volumeTimeout
  | .ok _ => none

/-- `AwsAsgEbs.checkMountPoint`: read `/proc/mounts` (contents supplied as
`procMounts`) and fail with "Already mounted" when the configured mount point
occurs as a substring anywhere in it (`strings.Contains`). -/
def AwsAsgEbs.checkMountPoint (procMounts mountPoint : String) : Except Unit Unit :=
  if mountPoint.data <:+: procMounts.data then .error () else .ok ()

/-- `waitForFile`: poll `os.Stat` until the file exists or the budget is
exhausted.  Time is modelled in discrete units: the `k`-th poll (counting
from `n`) observes `fileExists k` and consumes `pollCost k + 1` units — the
`+ 1` encodes the claim's assumption that every poll takes a positive amount
of time.  `timeout` is the remaining budget; the Go code recurses with
`timeout - elapsed` while that is still positive. -/
def waitForFile (fileExists : Nat → Bool) (pollCost : Nat → Nat)
    (n : Nat) (timeout : Nat) : Except Unit Unit :=
  if fileExists n then Except.ok ()
  else if h : 0 < timeout - (pollCost n + 1) then
    waitForFile fileExists pollCost (n + 1) (timeout - (pollCost n + 1))
  else Except.error ()
termination_by timeout
decreasing_by omega

/-- Number of `os.Stat` polls `waitForFile` performs (same recursion
structure as `waitForFile`). -/
def waitForFilePolls (fileExists : Nat → Bool) (pollCost : Nat → Nat)
    (n : Nat) (timeout : Nat) : Nat :=
  if fileExists n then 1
  else if h : 0 < timeout - (pollCost n + 1) then
    1 + waitForFilePolls fileExists pollCost (n + 1) (timeout - (pollCost n + 1))
  else 1
termination_by timeout
decreasing_by omega

/-- The fixed budget `attachVolume` passes to `waitForFile`
(`60*time.Second`), in the discrete time units of the model. -/
def deviceWaitTimeout : Nat := 60

/-- The device-node wait at the end of `AwsAsgEbs.attachVolume`:
`waitForFile("/dev/"+attachAs, 60*time.Second)`. -/
def AwsAsgEbs.attachVolumeDeviceWait (fileExists : Nat → Bool) (pollCost : Nat → Nat) :
    Except Unit Unit :=
  waitForFile fileExists pollCost 0 deviceWaitTimeout

/-- The events produced by the reuse loop, whether it exits normally or by a
fatal `findVolume` error. -/
def reuseEvents (env : Env) (cfg : Config) (r i ac : Nat) (vid : Option String) :
    List Event :=
  match reuseLoop env cfg r i ac vid with
  | .error evs => evs
  | .ok (_, _, evs) => evs

/-- The shape the reuse loop's trace must have: a sequence of iteration
blocks, where an iteration whose `findVolume` returned a match is the find
event immediately followed by exactly one `attachVolume` of the found volume,
and an iteration whose `findVolume` returned no match (or an error) is a lone
find event with no attach. -/
inductive ReuseBlocks (k v dev : String) (dot : Bool) : List Event → Prop
  | nil : ReuseBlocks k v dev dot []
  | findNoMatch {rest : List Event} (res : Except Unit (Option String))
      (h : ∀ s, res ≠ .ok (some s)) (hr : ReuseBlocks k v dev dot rest) :
      ReuseBlocks k v dev dot (Event.findVolume k v res :: rest)
  | findMatch {rest : List Event} (vid : String) (ok : Bool)
      (hr : ReuseBlocks k v dev dot rest) :
      ReuseBlocks k v dev dot
        (Event.findVolume k v (.ok (some vid)) :: Event.attachVolume vid dev dot ok :: rest)

/-- A configuration with no snapshot name, used to exercise the reuse
branch on concrete runs. -/
def reuseCfg : Config :=
  { tagKey := "env", tagValue := "prod", attachAs := "xvdb", mountPoint := "/data",
    createSize := 20, mkfsInodeRatio := 16384, createName := "data-vol",
    createVolumeType := "gp2", createTags := [], deleteOnTermination := false,
    snapshotName := "" }

/-- An environment in which every `findVolume` call discovers a volume and
every `attachVolume` call fails (fleet-wide contention), while all other
operations succeed. -/
def contendedEnv : Env :=
  { checkDeviceOk := true, checkMountPointOk := true,
    findVolumeRes := fun _ => .ok (some "vol-0"), attachVolumeOk := fun _ => false,
    findSnapshotRes := .ok none, createVolumeRes := .ok "vol-new",
    waitAvailableOk := true, makeFileSystemOk := true, mountVolumeOk := true }

/-- An environment in which no reusable volume is found, creation and the
availability wait succeed, and the attach of the freshly created volume
fails. -/
def attachFailEnv : Env :=
  { checkDeviceOk := true, checkMountPointOk := true,
    findVolumeRes := fun _ => .ok none, attachVolumeOk := fun _ => false,
    findSnapshotRes := .ok none, createVolumeRes := .ok "vol-new",
    waitAvailableOk := true, makeFileSystemOk := true, mountVolumeOk := true }

/-- An environment in which the first `findVolume` call returns no match and
everything else succeeds (the ordinary create-format-mount run). -/
def createEnv : Env :=
  { checkDeviceOk := true, checkMountPointOk := true,
    findVolumeRes := fun _ => .ok none, attachVolumeOk := fun _ => true,
    findSnapshotRes := .ok none, createVolumeRes := .ok "vol-new",
    waitAvailableOk := true, makeFileSystemOk := true, mountVolumeOk := true }


/-- C4 counterexample: a failure of the underlying describe/wait request that
is *not* a deadline expiry is nevertheless reported as the `VolumeTimeout`
error kind — `waitUntilVolumeAvailable` wraps every non-nil error of the SDK
waiter in `createFileSystemOnVolumeTimeout`, so the kind is not distinct from
a generic control-plane failure of the underlying call. -/
theorem waitUntilVolumeAvailable_requestError_gives_timeout :
    AwsAsgEbs.waitUntilVolumeAvailable (.error WaitFailure.requestError) =
      some VolumeError.volumeTimeout := rfl

/-- C4 (amended): `waitUntilVolumeAvailable` fails with the `VolumeTimeout`
error kind exactly when the underlying describe/wait call fails for any
reason (deadline expiry or control-plane failure alike), and it never
surfaces a generic control-plane error kind: every underlying failure is
collapsed into `VolumeTimeout`. -/
theorem waitUntilVolumeAvailable_timeout_iff_wait_failed :
    ∀ waitRes : Except WaitFailure Unit,
      (AwsAsgEbs.waitUntilVolumeAvailable waitRes = some VolumeError.volumeTimeout ↔
        waitRes ≠ .ok ()) ∧
      AwsAsgEbs.waitUntilVolumeAvailable waitRes ≠ some VolumeError.controlPlane := by
  intro waitRes
  cases waitRes with
  | error e => simp [AwsAsgEbs.waitUntilVolumeAvailable]
  | ok u => cases u; simp [AwsAsgEbs.waitUntilVolumeAvailable]

/-- C4 witness: a deadline expiry of the underlying waiter is reported as
the `VolumeTimeout` kind. -/
theorem waitUntilVolumeAvailable_timeout_iff_wait_failed_witness :
    AwsAsgEbs.waitUntilVolumeAvailable (.error WaitFailure.deadlineExceeded) =
      some VolumeError.volumeTimeout :=
  ((waitUntilVolumeAvailable_timeout_iff_wait_failed
      (.error WaitFailure.deadlineExceeded)).1).mpr (by simp)

/-- C5: when the `CreateVolume` request succeeds and the subsequent
`CreateTags` request fails, `createVolume` returns both the new volume id and
a non-nil error, and the only control-plane requests issued are the create
and the tag request — in particular no `DeleteVolume` is issued, so the
created volume is not rolled back. -/
theorem createVolume_returns_id_on_tag_failure :
    ∀ (env : AwsEnv) (az : String) (size : Int) (name vt : String)
      (extra : List (String × String)) (snap : Option String) (vid : String),
      env.createVolumeRes = .ok vid → env.createTagsOk = false →
      AwsAsgEbs.createVolume env az size name vt extra snap =
        ((some vid, true),
         [AwsCall.createVolumeCall az size vt snap,
          AwsCall.createTagsCall vid
            ([("Name", name), ("filesystem", if snap.isSome then "true" else "false")] ++ extra)]) ∧
      ∀ w, AwsCall.deleteVolumeCall w ∉ (AwsAsgEbs.createVolume env az size name vt extra snap).2 := by
  intro env az size name vt extra snap vid hres htags
  constructor
  · simp [AwsAsgEbs.createVolume, hres, htags]
  · intro w
    simp [AwsAsgEbs.createVolume, hres, htags]

/-- C5 witness: a concrete run in which creation succeeds and tagging fails
returns the volume id together with the error and performs no rollback. -/
theorem createVolume_returns_id_on_tag_failure_witness :
    AwsAsgEbs.createVolume ⟨.ok "vol-1", false, true⟩ "us-east-1a" 20 "data-vol" "gp2" [] none =
      ((some "vol-1", true),
       [AwsCall.createVolumeCall "us-east-1a" 20 "gp2" none,
        AwsCall.createTagsCall "vol-1" [("Name", "data-vol"), ("filesystem", "false")]]) :=
  (createVolume_returns_id_on_tag_failure ⟨.ok "vol-1", false, true⟩ "us-east-1a" 20
    "data-vol" "gp2" [] none "vol-1" rfl rfl).1

/-- C6: `findVolume` queries exactly the conjunction tag:`{key}`=`{value}`
AND tag:filesystem="true" AND status="available" AND availability-zone=local
zone; a successful query with zero matches yields the non-error "no match"
result `.ok none`, and `findVolume` returns an error exactly when the
control-plane call itself fails. -/
theorem findVolume_no_match_is_not_an_error :
    ∀ (describeVolumes : List Ec2Filter → Except Unit (List String)) (az tagKey tagValue : String),
      findVolumeFilters tagKey tagValue az =
        [⟨"tag:" ++ tagKey, [tagValue]⟩, ⟨"tag:filesystem", ["true"]⟩,
         ⟨"status", ["available"]⟩, ⟨"availability-zone", [az]⟩] ∧
      (describeVolumes (findVolumeFilters tagKey tagValue az) = .ok [] →
        AwsAsgEbs.findVolume describeVolumes az tagKey tagValue = .ok none) ∧
      (∀ e, AwsAsgEbs.findVolume describeVolumes az tagKey tagValue = .error e ↔
        describeVolumes (findVolumeFilters tagKey tagValue az) = .error e) := by
  intro describeVolumes az tagKey tagValue
  refine ⟨rfl, ?_, ?_⟩
  · intro h
    simp [AwsAsgEbs.findVolume, h]
  · intro e
    cases h : describeVolumes (findVolumeFilters tagKey tagValue az) with
    | error e' => simp [AwsAsgEbs.findVolume, h]
    | ok vols => cases vols <;> simp [AwsAsgEbs.findVolume, h]

/-- C6 witness: with a control plane holding zero matching volumes, a
concrete `findVolume` call returns "no match" and not an error. -/
theorem findVolume_no_match_is_not_an_error_witness :
    AwsAsgEbs.findVolume (fun _ => .ok []) "us-east-1a" "env" "prod" = .ok none :=
  (findVolume_no_match_is_not_an_error (fun _ => .ok []) "us-east-1a" "env" "prod").2.1 rfl

/-- C8: when a precondition check fails — the target device path already
exists, or the target mount point is already present in the mount table — the
run terminates fatally at once: the trace consists of the precondition checks
alone, so no control-plane call (in particular no mutating create-volume,
create-tags, attach-volume or modify-instance-attribute request) is ever
issued. -/
theorem precondition_failure_prevents_control_plane_calls :
    ∀ (env : Env) (cfg : Config),
      (env.checkDeviceOk = false →
        runAsgEbs env cfg = (.fatal, [Event.checkDevice ("/dev/" ++ cfg.attachAs) false]) ∧
        (runAsgEbs env cfg).2.countP Event.isControlPlaneCall = 0) ∧
      (env.checkDeviceOk = true → env.checkMountPointOk = false →
        runAsgEbs env cfg =
          (.fatal, [Event.checkDevice ("/dev/" ++ cfg.attachAs) true,
                    Event.checkMountPoint cfg.mountPoint false]) ∧
        (runAsgEbs env cfg).2.countP Event.isControlPlaneCall = 0) := by
  intro env cfg
  constructor
  · intro hdev
    have h : runAsgEbs env cfg = (.fatal, [Event.checkDevice ("/dev/" ++ cfg.attachAs) false]) := by
      simp [runAsgEbs, hdev]
    refine ⟨h, ?_⟩
    rw [h]
    simp [Event.isControlPlaneCall]
  · intro hdev hmp
    have h : runAsgEbs env cfg =
        (.fatal, [Event.checkDevice ("/dev/" ++ cfg.attachAs) true,
                  Event.checkMountPoint cfg.mountPoint false]) := by
      simp [runAsgEbs, hdev, hmp]
    refine ⟨h, ?_⟩
    rw [h]
    simp [Event.isControlPlaneCall]

/-- C8 witness: a concrete run whose mount point is already present in the
mount table terminates with only the two precondition events and zero
control-plane calls. -/
theorem precondition_failure_prevents_control_plane_calls_witness :
    runAsgEbs { contendedEnv with checkMountPointOk := false } reuseCfg =
      (.fatal, [Event.checkDevice "/dev/xvdb" true, Event.checkMountPoint "/data" false]) ∧
    (runAsgEbs { contendedEnv with checkMountPointOk := false } reuseCfg).2.countP
      Event.isControlPlaneCall = 0 :=
  (precondition_failure_prevents_control_plane_calls
    { contendedEnv with checkMountPointOk := false } reuseCfg).2 rfl rfl

/-- C10: `checkMountPoint` reports "already mounted" precisely when the
configured mount-point string occurs as a substring anywhere in the
`/proc/mounts` contents; consequently a mount point that is merely a proper
substring of some other mounted path fails the precondition check even though
that exact path is not mounted (witnessed by `/data` against a table whose
only entry mounts `/data1`). -/
theorem checkMountPoint_is_substring_match :
    (∀ procMounts mountPoint : String,
      AwsAsgEbs.checkMountPoint procMounts mountPoint = .error () ↔
        ∃ pre post : List Char, pre ++ mountPoint.data ++ post = procMounts.data) ∧
    AwsAsgEbs.checkMountPoint "/dev/xvdb1 /data1 ext4 rw 0 0" "/data" = .error () := by
  constructor
  · intro procMounts mountPoint
    by_cases h : mountPoint.data <:+: procMounts.data
    · simp only [AwsAsgEbs.checkMountPoint, if_pos h]
      exact iff_of_true (by simp) h
    · simp only [AwsAsgEbs.checkMountPoint, if_neg h]
      exact iff_of_false (by simp) h
  · decide

/-- C10 witness: a concrete mount table containing `/data` as a substring
makes `checkMountPoint` report "already mounted". -/
theorem checkMountPoint_is_substring_match_witness :
    AwsAsgEbs.checkMountPoint "/dev/xvdc /data ext4 rw 0 0" "/data" = .error () :=
  (checkMountPoint_is_substring_match.1 "/dev/xvdc /data ext4 rw 0 0" "/data").mpr
    ⟨"/dev/xvdc ".data, " ext4 rw 0 0".data, by decide⟩

/-- The device wait of `attachVolume` always terminates with a bounded number
of polls, and succeeds exactly when the file existed at one of the performed
polls (helper for the C9 theorem, by strong induction on the remaining
budget). -/
theorem waitForFile_poll_bound_and_ok_iff (fileExists : Nat → Bool) (pollCost : Nat → Nat) :
    ∀ timeout n,
      waitForFilePolls fileExists pollCost n timeout ≤ timeout + 1 ∧
      (waitForFile fileExists pollCost n timeout = Except.ok () ↔
        ∃ k, k < waitForFilePolls fileExists pollCost n timeout ∧
          fileExists (n + k) = true) := by
  intro timeout
  induction timeout using Nat.strong_induction_on with
  | _ timeout IH =>
    intro n
    by_cases hfe : fileExists n
    · have hpolls : waitForFilePolls fileExists pollCost n timeout = 1 := by
        rw [waitForFilePolls]; simp [hfe]
      have hok : waitForFile fileExists pollCost n timeout = Except.ok () := by
        rw [waitForFile]; simp [hfe]
      refine ⟨by omega, ?_⟩
      rw [hpolls, hok]
      exact iff_of_true rfl ⟨0, Nat.zero_lt_one, by simpa using hfe⟩
    · by_cases hb : 0 < timeout - (pollCost n + 1)
      · have hlt : timeout - (pollCost n + 1) < timeout := by omega
        obtain ⟨ih1, ih2⟩ := IH _ hlt (n + 1)
        have hpolls : waitForFilePolls fileExists pollCost n timeout =
            1 + waitForFilePolls fileExists pollCost (n + 1) (timeout - (pollCost n + 1)) := by
          rw [waitForFilePolls]; simp [hfe, hb]
        have hwait : waitForFile fileExists pollCost n timeout =
            waitForFile fileExists pollCost (n + 1) (timeout - (pollCost n + 1)) := by
          rw [waitForFile]; simp [hfe, hb]
        refine ⟨by omega, ?_⟩
        rw [hwait, hpolls, ih2]
        constructor
        · rintro ⟨k, hk, hfek⟩
          refine ⟨k + 1, by omega, ?_⟩
          have hsh : n + 1 + k = n + (k + 1) := by omega
          rwa [hsh] at hfek
        · rintro ⟨k, hk, hfek⟩
          cases k with
          | zero => simp at hfek; exact absurd hfek hfe
          | succ k' =>
            refine ⟨k', by omega, ?_⟩
            have hsh : n + (k' + 1) = n + 1 + k' := by omega
            rwa [hsh] at hfek
      · have hpolls : waitForFilePolls fileExists pollCost n timeout = 1 := by
          rw [waitForFilePolls]; simp [hfe, hb]
        have herr : waitForFile fileExists pollCost n timeout = Except.error () := by
          rw [waitForFile]; simp [hfe, hb]
        refine ⟨by omega, ?_⟩
        rw [hpolls, herr]
        refine iff_of_false (by simp) ?_
        rintro ⟨k, hk, hfek⟩
        have hk0 : k = 0 := by omega
        subst hk0
        simp at hfek
        exact absurd hfek hfe

/-- C9: the device-node wait terminates on every input.  With every poll
consuming a positive amount of time, `waitForFile` performs at most
`timeout + 1` existence polls (it never polls once the budget is exhausted),
it returns success exactly when the file existed at one of the performed
polls, and otherwise returns the not-found error; `attachVolume` invokes it
with the fixed 60-second budget. -/
theorem waitForFile_terminates_within_budget :
    ∀ (fileExists : Nat → Bool) (pollCost : Nat → Nat) (n timeout : Nat),
      waitForFilePolls fileExists pollCost n timeout ≤ timeout + 1 ∧
      (waitForFile fileExists pollCost n timeout = Except.ok () ↔
        ∃ k, k < waitForFilePolls fileExists pollCost n timeout ∧
          fileExists (n + k) = true) ∧
      (waitForFile fileExists pollCost n timeout = Except.error () ↔
        ∀ k, k < waitForFilePolls fileExists pollCost n timeout →
          fileExists (n + k) = false) ∧
      AwsAsgEbs.attachVolumeDeviceWait fileExists pollCost =
        waitForFile fileExists pollCost 0 deviceWaitTimeout := by
  intro fileExists pollCost n timeout
  obtain ⟨h1, h2⟩ := waitForFile_poll_bound_and_ok_iff fileExists pollCost timeout n
  refine ⟨h1, h2, ?_, rfl⟩
  constructor
  · intro herr k hk
    by_contra hex
    have hok : waitForFile fileExists pollCost n timeout = Except.ok () :=
      h2.mpr ⟨k, hk, by revert hex; cases fileExists (n + k) <;> simp⟩
    rw [hok] at herr
    exact absurd herr (by simp)
  · intro hall
    cases hres : waitForFile fileExists pollCost n timeout with
    | ok u => cases u
              obtain ⟨k, hk, hfek⟩ := h2.mp hres
              have := hall k hk
              rw [hfek] at this
              exact absurd this (by simp)
    | error e => cases e; rfl

/-- C9 witness: with a device node that never appears and zero-cost polls,
the 60-unit budget yields at most 61 polls and the wait returns the
not-found error. -/
theorem waitForFile_terminates_within_budget_witness :
    waitForFilePolls (fun _ => false) (fun _ => 0) 0 60 ≤ 61 ∧
    waitForFile (fun _ => false) (fun _ => 0) 0 60 = Except.error () :=
  ⟨(waitForFile_terminates_within_budget (fun _ => false) (fun _ => 0) 0 60).1,
   ((waitForFile_terminates_within_budget (fun _ => false) (fun _ => 0) 0 60).2.2.1).mpr
     (fun _ _ => rfl)⟩

/-- Sorting by descending creation time puts a snapshot with maximal
`startTime` first (helper for the C7 theorem). -/
theorem sortSnapshotsDesc_head_is_max (l : List Snapshot) (hl : l ≠ []) :
    ∃ s rest, sortSnapshotsDesc l = s :: rest ∧ s ∈ l ∧
      ∀ t ∈ l, t.startTime ≤ s.startTime := by
  have htrans : ∀ a b c : Snapshot,
      byStartTimeDesc a b → byStartTimeDesc b c → byStartTimeDesc a c := by
    intro a b c
    simp [byStartTimeDesc]
    omega
  have htotal : ∀ a b : Snapshot, byStartTimeDesc a b || byStartTimeDesc b a := by
    intro a b
    simp [byStartTimeDesc]
    omega
  have hsorted : (sortSnapshotsDesc l).Pairwise (byStartTimeDesc · ·) :=
    List.sorted_mergeSort htrans htotal l
  have hne : sortSnapshotsDesc l ≠ [] := by
    intro h
    apply hl
    have hperm := List.mergeSort_perm l byStartTimeDesc
    have := hperm.length_eq
    rw [sortSnapshotsDesc] at h
    rw [h] at this
    exact List.length_eq_zero.mp this.symm
  cases hs : sortSnapshotsDesc l with
  | nil => exact absurd hs hne
  | cons s rest =>
    refine ⟨s, rest, rfl, ?_, ?_⟩
    · have : s ∈ sortSnapshotsDesc l := by rw [hs]; exact List.mem_cons_self s rest
      rwa [sortSnapshotsDesc, List.mem_mergeSort] at this
    · intro t ht
      have htmem : t ∈ sortSnapshotsDesc l := by
        rw [sortSnapshotsDesc, List.mem_mergeSort]
        exact ht
      rw [hs] at htmem
      rcases List.mem_cons.mp htmem with heq | htl
      · rw [heq]
      · rw [hs] at hsorted
        have := (List.pairwise_cons.mp hsorted).1 t htl
        simpa [byStartTimeDesc] using this

/-- C7: `findSnapshot` queries completed snapshots matching the tag; for any
non-empty result set it returns the id of a snapshot whose creation timestamp
is maximal among the results, for an empty result set it returns the
non-error "no match" result, and it returns an error exactly when the
control-plane call fails. -/
theorem findSnapshot_returns_newest :
    ∀ (describeSnapshots : List Ec2Filter → Except Unit (List Snapshot)) (tagKey tagValue : String),
      (describeSnapshots (findSnapshotFilters tagKey tagValue) = .ok [] →
        AwsAsgEbs.findSnapshot describeSnapshots tagKey tagValue = .ok none) ∧
      (∀ snaps, describeSnapshots (findSnapshotFilters tagKey tagValue) = .ok snaps →
        snaps ≠ [] →
        ∃ s ∈ snaps,
          AwsAsgEbs.findSnapshot describeSnapshots tagKey tagValue = .ok (some s.snapshotId) ∧
          ∀ t ∈ snaps, t.startTime ≤ s.startTime) ∧
      (∀ e, AwsAsgEbs.findSnapshot describeSnapshots tagKey tagValue = .error e ↔
        describeSnapshots (findSnapshotFilters tagKey tagValue) = .error e) := by
  intro describeSnapshots tagKey tagValue
  refine ⟨?_, ?_, ?_⟩
  · intro h
    simp [AwsAsgEbs.findSnapshot, h, sortSnapshotsDesc]
  · intro snaps hres hne
    obtain ⟨s, rest, hsort, hmem, hmax⟩ := sortSnapshotsDesc_head_is_max snaps hne
    refine ⟨s, hmem, ?_, hmax⟩
    simp [AwsAsgEbs.findSnapshot, hres, hsort]
  · intro e
    cases h : describeSnapshots (findSnapshotFilters tagKey tagValue) with
    | error e' => simp [AwsAsgEbs.findSnapshot, h]
    | ok snaps =>
      cases hs : sortSnapshotsDesc snaps <;>
        simp [AwsAsgEbs.findSnapshot, h, hs]

/-- C7 witness: among three concrete completed snapshots the one with the
latest creation timestamp is returned, and a concrete empty result yields "no
match". -/
theorem findSnapshot_returns_newest_witness :
    (∃ s ∈ ([⟨"snap-a", 5⟩, ⟨"snap-b", 9⟩, ⟨"snap-c", 7⟩] : List Snapshot),
      AwsAsgEbs.findSnapshot (fun _ => .ok [⟨"snap-a", 5⟩, ⟨"snap-b", 9⟩, ⟨"snap-c", 7⟩])
        "Name" "nightly-backup" = .ok (some s.snapshotId) ∧
      ∀ t ∈ ([⟨"snap-a", 5⟩, ⟨"snap-b", 9⟩, ⟨"snap-c", 7⟩] : List Snapshot),
        t.startTime ≤ s.startTime) ∧
    AwsAsgEbs.findSnapshot (fun _ => .ok []) "Name" "nightly-backup" = .ok none :=
  ⟨(findSnapshot_returns_newest
      (fun _ => .ok [⟨"snap-a", 5⟩, ⟨"snap-b", 9⟩, ⟨"snap-c", 7⟩])
      "Name" "nightly-backup").2.1 _ rfl (by simp),
   (findSnapshot_returns_newest (fun _ => .ok []) "Name" "nightly-backup").1 rfl⟩

/-- The trace of the reuse loop has the block shape of `ReuseBlocks` and
contains at most one `findVolume` event per remaining iteration (helper,
by induction on the remaining iteration count). -/
theorem reuseLoop_shape (env : Env) (cfg : Config) :
    ∀ r i ac vid,
      ReuseBlocks cfg.tagKey cfg.tagValue cfg.attachAs cfg.deleteOnTermination
        (reuseEvents env cfg r i ac vid) ∧
      (reuseEvents env cfg r i ac vid).countP Event.isFindVolume ≤ r := by
  intro r
  induction r with
  | zero =>
    intro i ac vid
    have hev : reuseEvents env cfg 0 i ac vid = [] := rfl
    rw [hev]
    exact ⟨ReuseBlocks.nil, by simp⟩
  | succ r IH =>
    intro i ac vid
    cases hf : env.findVolumeRes i with
    | error e =>
      have hev : reuseEvents env cfg (r + 1) i ac vid =
          [Event.findVolume cfg.tagKey cfg.tagValue (.error e)] := by
        simp [reuseEvents, reuseLoop, hf]
      rw [hev]
      refine ⟨ReuseBlocks.findNoMatch _ (by intro s; simp) ReuseBlocks.nil, ?_⟩
      simp [Event.isFindVolume]
    | ok o =>
      cases o with
      | none =>
        have hev : reuseEvents env cfg (r + 1) i ac vid =
            [Event.findVolume cfg.tagKey cfg.tagValue (.ok none)] := by
          simp [reuseEvents, reuseLoop, hf]
        rw [hev]
        refine ⟨ReuseBlocks.findNoMatch _ (by intro s; simp) ReuseBlocks.nil, ?_⟩
        simp [Event.isFindVolume]
      | some v =>
        cases hat : env.attachVolumeOk ac with
        | true =>
          have hev : reuseEvents env cfg (r + 1) i ac vid =
              [Event.findVolume cfg.tagKey cfg.tagValue (.ok (some v)),
               Event.attachVolume v cfg.attachAs cfg.deleteOnTermination true] := by
            simp [reuseEvents, reuseLoop, hf, hat]
          rw [hev]
          refine ⟨ReuseBlocks.findMatch v true ReuseBlocks.nil, ?_⟩
          simp [Event.isFindVolume, Event.isAttachVolume]
        | false =>
          have hev : reuseEvents env cfg (r + 1) i ac vid =
              Event.findVolume cfg.tagKey cfg.tagValue (.ok (some v)) ::
              Event.attachVolume v cfg.attachAs cfg.deleteOnTermination false ::
              reuseEvents env cfg r (i + 1) (ac + 1) (some v) := by
            cases hrec : reuseLoop env cfg r (i + 1) (ac + 1) (some v) with
            | error evs => simp [reuseEvents, reuseLoop, hf, hat, hrec]
            | ok res =>
              obtain ⟨vid', ac', evs⟩ := res
              simp [reuseEvents, reuseLoop, hf, hat, hrec]
          rw [hev]
          obtain ⟨ihb, ihc⟩ := IH (i + 1) (ac + 1) (some v)
          refine ⟨ReuseBlocks.findMatch v false ihb, ?_⟩
          simp [List.countP_cons, Event.isFindVolume, Event.isAttachVolume]
          omega

/-- Every event of a `ReuseBlocks`-shaped trace is a `findVolume` or an
`attachVolume` call (helper). -/
theorem ReuseBlocks.mem_find_or_attach {k v dev : String} {dot : Bool} {l : List Event}
    (h : ReuseBlocks k v dev dot l) :
    ∀ e ∈ l, e.isFindVolume = true ∨ e.isAttachVolume = true := by
  induction h with
  | nil => intro e he; simp at he
  | findNoMatch res hres hr ih =>
    intro e he
    rcases List.mem_cons.mp he with heq | htl
    · subst heq; left; rfl
    · exact ih e htl
  | findMatch vid ok hr ih =>
    intro e he
    rcases List.mem_cons.mp he with heq | htl
    · subst heq; left; rfl
    · rcases List.mem_cons.mp htl with heq' | htl'
      · subst heq'; right; rfl
      · exact ih e htl'

/-- A `findVolume` or `attachVolume` event is not a creation, formatting or
mount event (helper). -/
theorem find_attach_event_not_create (e : Event)
    (h : e.isFindVolume = true ∨ e.isAttachVolume = true) :
    e.isCreateVolume = false ∧ e.isCreateVolumeWithSnap = false ∧
    e.isCreateVolumeNoSnap = false ∧ e.isMakeFileSystem = false := by
  cases e <;> simp_all [Event.isFindVolume, Event.isAttachVolume, Event.isCreateVolume,
    Event.isCreateVolumeWithSnap, Event.isCreateVolumeNoSnap, Event.isMakeFileSystem]

/-- The reuse loop emits no creation or formatting events (helper). -/
theorem reuseEvents_countP_create_mkfs_zero (env : Env) (cfg : Config) (r i ac : Nat)
    (vid : Option String) (p : Event → Bool)
    (hp : ∀ e, (e.isFindVolume = true ∨ e.isAttachVolume = true) → p e = false) :
    (reuseEvents env cfg r i ac vid).countP p = 0 := by
  rw [List.countP_eq_zero]
  intro e he
  have := (reuseLoop_shape env cfg r i ac vid).1.mem_find_or_attach e he
  simp [hp e this]

/-- `finishRun` with the format flag cleared is just the mount step
(helper). -/
theorem finishRun_false_eq_mountStep (env : Env) (cfg : Config) (dev vid : String) :
    finishRun env cfg dev false vid = mountStep env cfg dev := by
  simp [finishRun]

/-- `finishRun` emits only `makeFileSystem` and `mountVolume` events
(helper). -/
theorem finishRun_countP_zero (env : Env) (cfg : Config) (dev vid : String) (b : Bool)
    (p : Event → Bool)
    (hp1 : ∀ d r vv ok, p (Event.makeFileSystem d r vv ok) = false)
    (hp2 : ∀ d m ok, p (Event.mountVolume d m ok) = false) :
    ((finishRun env cfg dev b vid).2).countP p = 0 := by
  cases b with
  | false => simp [finishRun, mountStep, List.countP_cons, hp2]
  | true =>
    cases hm : env.makeFileSystemOk <;>
      simp [finishRun, mountStep, hm, List.countP_cons, hp1, hp2]

/-- `createPath` emits no `findVolume` events (helper). -/
theorem createPath_countP_findVolume_zero (env : Env) (cfg : Config) (dev : String)
    (snap : Option String) (ac : Nat) :
    ((createPath env cfg dev snap ac).2).countP Event.isFindVolume = 0 := by
  cases hc : env.createVolumeRes with
  | error e => simp [createPath, hc, Event.isFindVolume]
  | ok vid =>
    cases hw : env.waitAvailableOk with
    | false => simp [createPath, hc, hw, List.countP_cons, Event.isFindVolume]
    | true =>
      cases hat : env.attachVolumeOk ac with
      | false => simp [createPath, hc, hw, hat, List.countP_cons, Event.isFindVolume]
      | true =>
        simp only [createPath, hc, hw, hat]
        simp [List.countP_cons, Event.isFindVolume,
          finishRun_countP_zero env cfg dev vid _ Event.isFindVolume
            (by intro d r vv ok; rfl) (by intro d m ok; rfl)]

/-- `createPath` with no snapshot id in hand emits no snapshot-restoring
`createVolume` event (helper). -/
theorem createPath_none_countP_withSnap_zero (env : Env) (cfg : Config) (dev : String)
    (ac : Nat) :
    ((createPath env cfg dev none ac).2).countP Event.isCreateVolumeWithSnap = 0 := by
  cases hc : env.createVolumeRes with
  | error e => simp [createPath, hc, Event.isCreateVolumeWithSnap]
  | ok vid =>
    cases hw : env.waitAvailableOk with
    | false => simp [createPath, hc, hw, List.countP_cons, Event.isCreateVolumeWithSnap]
    | true =>
      cases hat : env.attachVolumeOk ac with
      | false => simp [createPath, hc, hw, hat, List.countP_cons, Event.isCreateVolumeWithSnap]
      | true =>
        simp only [createPath, hc, hw, hat]
        simp [List.countP_cons, Event.isCreateVolumeWithSnap,
          finishRun_countP_zero env cfg dev vid _ Event.isCreateVolumeWithSnap
            (by intro d r vv ok; rfl) (by intro d m ok; rfl)]

/-- `createPath` with a snapshot id in hand emits no blank `createVolume`
event (helper). -/
theorem createPath_some_countP_noSnap_zero (env : Env) (cfg : Config) (dev : String)
    (s : String) (ac : Nat) :
    ((createPath env cfg dev (some s) ac).2).countP Event.isCreateVolumeNoSnap = 0 := by
  cases hc : env.createVolumeRes with
  | error e => simp [createPath, hc, Event.isCreateVolumeNoSnap]
  | ok vid =>
    cases hw : env.waitAvailableOk with
    | false => simp [createPath, hc, hw, List.countP_cons, Event.isCreateVolumeNoSnap]
    | true =>
      cases hat : env.attachVolumeOk ac with
      | false => simp [createPath, hc, hw, hat, List.countP_cons, Event.isCreateVolumeNoSnap]
      | true =>
        simp only [createPath, hc, hw, hat]
        simp [List.countP_cons, Event.isCreateVolumeNoSnap,
          finishRun_countP_zero env cfg dev vid _ Event.isCreateVolumeNoSnap
            (by intro d r vv ok; rfl) (by intro d m ok; rfl)]

/-- `createPath` with a snapshot id in hand never formats: the
`createFileSystemOnVolume` flag stays cleared, so no `makeFileSystem` event
is emitted (helper). -/
theorem createPath_some_countP_mkfs_zero (env : Env) (cfg : Config) (dev : String)
    (s : String) (ac : Nat) :
    ((createPath env cfg dev (some s) ac).2).countP Event.isMakeFileSystem = 0 := by
  cases hc : env.createVolumeRes with
  | error e => simp [createPath, hc, Event.isMakeFileSystem]
  | ok vid =>
    cases hw : env.waitAvailableOk with
    | false => simp [createPath, hc, hw, List.countP_cons, Event.isMakeFileSystem]
    | true =>
      cases hat : env.attachVolumeOk ac with
      | false => simp [createPath, hc, hw, hat, List.countP_cons, Event.isMakeFileSystem]
      | true =>
        simp only [createPath, hc, hw, hat]
        simp [List.countP_cons, Event.isMakeFileSystem, List.countP_eq_zero]
        intro a ha
        rw [finishRun_false_eq_mountStep] at ha
        simp [mountStep] at ha
        subst ha
        rfl

/-- C2: in the reuse branch (no snapshot name configured) the reuse loop
performs at most 10 iterations — its trace contains at most 10 `findVolume`
events and every `findVolume` event of the run belongs to it — and the trace
has the `ReuseBlocks` shape: each iteration is exactly one `findVolume`
followed by exactly one `attachVolume` when (and only when) that
`findVolume` returned a match. -/
theorem reuse_loop_ten_iterations_one_find_then_attach :
    ∀ (env : Env) (cfg : Config), cfg.snapshotName = "" →
      ReuseBlocks cfg.tagKey cfg.tagValue cfg.attachAs cfg.deleteOnTermination
        (reuseEvents env cfg 10 1 0 none) ∧
      (reuseEvents env cfg 10 1 0 none).countP Event.isFindVolume ≤ 10 ∧
      (env.checkDeviceOk = true → env.checkMountPointOk = true →
        ∃ rest,
          (runAsgEbs env cfg).2 =
            Event.checkDevice ("/dev/" ++ cfg.attachAs) true ::
            Event.checkMountPoint cfg.mountPoint true ::
            (reuseEvents env cfg 10 1 0 none ++ rest) ∧
          rest.countP Event.isFindVolume = 0) := by
  intro env cfg hsnap
  obtain ⟨hshape, hcount⟩ := reuseLoop_shape env cfg 10 1 0 none
  refine ⟨hshape, hcount, ?_⟩
  intro hdev hmp
  cases hloop : reuseLoop env cfg 10 1 0 none with
  | error evs =>
    have hev : reuseEvents env cfg 10 1 0 none = evs := by
      simp [reuseEvents, hloop]
    refine ⟨[], ?_, by simp⟩
    simp [runAsgEbs, hdev, hmp, hsnap, hloop, hev]
  | ok res =>
    obtain ⟨ovid, ac, evs⟩ := res
    have hev : reuseEvents env cfg 10 1 0 none = evs := by
      simp [reuseEvents, hloop]
    cases ovid with
    | some v =>
      refine ⟨(finishRun env cfg ("/dev/" ++ cfg.attachAs) false v).2, ?_, ?_⟩
      · simp [runAsgEbs, hdev, hmp, hsnap, hloop, hev]
      · exact finishRun_countP_zero env cfg _ v false Event.isFindVolume
          (by intro d r vv ok; rfl) (by intro d m ok; rfl)
    | none =>
      refine ⟨(createPath env cfg ("/dev/" ++ cfg.attachAs) none ac).2, ?_, ?_⟩
      · simp [runAsgEbs, hdev, hmp, hsnap, hloop, hev]
      · exact createPath_countP_findVolume_zero env cfg _ none ac

/-- C2 witness: a concrete reuse-branch run in which the first `findVolume`
returns no match; the loop trace is bounded by 10 find events and the run
trace decomposes into prechecks, loop events and a find-free remainder. -/
theorem reuse_loop_ten_iterations_witness :
    (reuseEvents createEnv reuseCfg 10 1 0 none).countP Event.isFindVolume ≤ 10 ∧
    ∃ rest,
      (runAsgEbs createEnv reuseCfg).2 =
        Event.checkDevice "/dev/xvdb" true ::
        Event.checkMountPoint "/data" true ::
        (reuseEvents createEnv reuseCfg 10 1 0 none ++ rest) ∧
      rest.countP Event.isFindVolume = 0 :=
  ⟨(reuse_loop_ten_iterations_one_find_then_attach createEnv reuseCfg rfl).2.1,
   (reuse_loop_ten_iterations_one_find_then_attach createEnv reuseCfg rfl).2.2 rfl rfl⟩

/-- A successful pass through `createPath` with no snapshot id formats the
volume: the trace contains a `makeFileSystem` event (helper). -/
theorem createPath_none_success_mkfs_pos (env : Env) (cfg : Config) (dev : String)
    (ac : Nat) (hsucc : (createPath env cfg dev none ac).1 = .success) :
    0 < ((createPath env cfg dev none ac).2).countP Event.isMakeFileSystem := by
  cases hc : env.createVolumeRes with
  | error e => rw [createPath, hc] at hsucc; simp at hsucc
  | ok vid =>
    cases hw : env.waitAvailableOk with
    | false => rw [createPath, hc] at hsucc; simp [hw] at hsucc
    | true =>
      cases hat : env.attachVolumeOk ac with
      | false => rw [createPath, hc] at hsucc; simp [hw, hat] at hsucc
      | true =>
        cases hm : env.makeFileSystemOk with
        | false =>
          rw [createPath, hc] at hsucc
          simp [hw, hat, finishRun, hm] at hsucc
        | true =>
          simp only [createPath, hc, hw, hat]
          simp [finishRun, hm, mountStep, List.countP_cons, Event.isMakeFileSystem]

/-- A run whose trace contains a snapshot-restoring `createVolume` call never
formats: `createFileSystemOnVolume` is set only when no snapshot id is in
hand (run-level helper for C3). -/
theorem runAsgEbs_withSnap_no_mkfs (env : Env) (cfg : Config)
    (h : 0 < ((runAsgEbs env cfg).2).countP Event.isCreateVolumeWithSnap) :
    ((runAsgEbs env cfg).2).countP Event.isMakeFileSystem = 0 := by
  have hp_ws : ∀ e : Event, (e.isFindVolume = true ∨ e.isAttachVolume = true) →
      e.isCreateVolumeWithSnap = false :=
    fun e he => (find_attach_event_not_create e he).2.1
  have hp_mk : ∀ e : Event, (e.isFindVolume = true ∨ e.isAttachVolume = true) →
      e.isMakeFileSystem = false :=
    fun e he => (find_attach_event_not_create e he).2.2.2
  cases hdev : env.checkDeviceOk with
  | false =>
    have ht : (runAsgEbs env cfg).2 = [Event.checkDevice ("/dev/" ++ cfg.attachAs) false] := by
      simp [runAsgEbs, hdev]
    rw [ht] at h
    simp [Event.isCreateVolumeWithSnap] at h
  | true =>
    cases hmp : env.checkMountPointOk with
    | false =>
      have ht : (runAsgEbs env cfg).2 =
          [Event.checkDevice ("/dev/" ++ cfg.attachAs) true,
           Event.checkMountPoint cfg.mountPoint false] := by
        simp [runAsgEbs, hdev, hmp]
      rw [ht] at h
      simp [Event.isCreateVolumeWithSnap] at h
    | true =>
      by_cases hsnap : cfg.snapshotName = ""
      · cases hloop : reuseLoop env cfg 10 1 0 none with
        | error evs =>
          have hev : reuseEvents env cfg 10 1 0 none = evs := by
            simp [reuseEvents, hloop]
          have ht : (runAsgEbs env cfg).2 =
              Event.checkDevice ("/dev/" ++ cfg.attachAs) true ::
              Event.checkMountPoint cfg.mountPoint true :: evs := by
            simp [runAsgEbs, hdev, hmp, hsnap, hloop]
          rw [ht]
          simp [List.countP_cons, Event.isMakeFileSystem, ← hev,
            reuseEvents_countP_create_mkfs_zero env cfg 10 1 0 none _ hp_mk]
        | ok res =>
          obtain ⟨ovid, ac, evs⟩ := res
          have hev : reuseEvents env cfg 10 1 0 none = evs := by
            simp [reuseEvents, hloop]
          cases ovid with
          | some v =>
            have ht : (runAsgEbs env cfg).2 =
                Event.checkDevice ("/dev/" ++ cfg.attachAs) true ::
                Event.checkMountPoint cfg.mountPoint true ::
                (evs ++ (finishRun env cfg ("/dev/" ++ cfg.attachAs) false v).2) := by
              simp [runAsgEbs, hdev, hmp, hsnap, hloop]
            rw [ht]
            rw [finishRun_false_eq_mountStep]
            simp [List.countP_cons, List.countP_append, Event.isMakeFileSystem, mountStep,
              ← hev, reuseEvents_countP_create_mkfs_zero env cfg 10 1 0 none _ hp_mk]
          | none =>
            have ht : (runAsgEbs env cfg).2 =
                Event.checkDevice ("/dev/" ++ cfg.attachAs) true ::
                Event.checkMountPoint cfg.mountPoint true ::
                (evs ++ (createPath env cfg ("/dev/" ++ cfg.attachAs) none ac).2) := by
              simp [runAsgEbs, hdev, hmp, hsnap, hloop]
            rw [ht] at h
            rw [List.countP_cons, List.countP_cons, List.countP_append] at h
            rw [← hev, reuseEvents_countP_create_mkfs_zero env cfg 10 1 0 none _ hp_ws,
              createPath_none_countP_withSnap_zero] at h
            simp [Event.isCreateVolumeWithSnap] at h
      · cases hfs : env.findSnapshotRes with
        | error e =>
          have ht : (runAsgEbs env cfg).2 =
              Event.checkDevice ("/dev/" ++ cfg.attachAs) true ::
              Event.checkMountPoint cfg.mountPoint true ::
              [Event.findSnapshot "Name" cfg.snapshotName (.error e)] := by
            simp [runAsgEbs, hdev, hmp, hsnap, hfs]
          rw [ht]
          simp [List.countP_cons, Event.isMakeFileSystem]
        | ok s =>
          cases s with
          | none =>
            have ht : (runAsgEbs env cfg).2 =
                Event.checkDevice ("/dev/" ++ cfg.attachAs) true ::
                Event.checkMountPoint cfg.mountPoint true ::
                Event.findSnapshot "Name" cfg.snapshotName (.ok none) ::
                (createPath env cfg ("/dev/" ++ cfg.attachAs) none 0).2 := by
              simp [runAsgEbs, hdev, hmp, hsnap, hfs]
            rw [ht] at h
            rw [List.countP_cons, List.countP_cons, List.countP_cons,
              createPath_none_countP_withSnap_zero] at h
            simp [Event.isCreateVolumeWithSnap] at h
          | some ss =>
            have ht : (runAsgEbs env cfg).2 =
                Event.checkDevice ("/dev/" ++ cfg.attachAs) true ::
                Event.checkMountPoint cfg.mountPoint true ::
                Event.findSnapshot "Name" cfg.snapshotName (.ok (some ss)) ::
                (createPath env cfg ("/dev/" ++ cfg.attachAs) (some ss) 0).2 := by
              simp [runAsgEbs, hdev, hmp, hsnap, hfs]
            rw [ht]
            rw [List.countP_cons, List.countP_cons, List.countP_cons,
              createPath_some_countP_mkfs_zero]
            simp [Event.isMakeFileSystem]

/-- A successful run whose trace contains a blank (no-snapshot)
`createVolume` call also contains a `makeFileSystem` call (run-level helper
for C3). -/
theorem runAsgEbs_success_noSnap_mkfs (env : Env) (cfg : Config)
    (hsucc : (runAsgEbs env cfg).1 = .success)
    (h : 0 < ((runAsgEbs env cfg).2).countP Event.isCreateVolumeNoSnap) :
    0 < ((runAsgEbs env cfg).2).countP Event.isMakeFileSystem := by
  have hp_ns : ∀ e : Event, (e.isFindVolume = true ∨ e.isAttachVolume = true) →
      e.isCreateVolumeNoSnap = false :=
    fun e he => (find_attach_event_not_create e he).2.2.1
  cases hdev : env.checkDeviceOk with
  | false =>
    have ho : (runAsgEbs env cfg).1 = .fatal := by simp [runAsgEbs, hdev]
    rw [ho] at hsucc
    exact absurd hsucc (by simp)
  | true =>
    cases hmp : env.checkMountPointOk with
    | false =>
      have ho : (runAsgEbs env cfg).1 = .fatal := by simp [runAsgEbs, hdev, hmp]
      rw [ho] at hsucc
      exact absurd hsucc (by simp)
    | true =>
      by_cases hsnap : cfg.snapshotName = ""
      · cases hloop : reuseLoop env cfg 10 1 0 none with
        | error evs =>
          have ho : (runAsgEbs env cfg).1 = .fatal := by
            simp [runAsgEbs, hdev, hmp, hsnap, hloop]
          rw [ho] at hsucc
          exact absurd hsucc (by simp)
        | ok res =>
          obtain ⟨ovid, ac, evs⟩ := res
          have hev : reuseEvents env cfg 10 1 0 none = evs := by
            simp [reuseEvents, hloop]
          cases ovid with
          | some v =>
            have ht : (runAsgEbs env cfg).2 =
                Event.checkDevice ("/dev/" ++ cfg.attachAs) true ::
                Event.checkMountPoint cfg.mountPoint true ::
                (evs ++ (finishRun env cfg ("/dev/" ++ cfg.attachAs) false v).2) := by
              simp [runAsgEbs, hdev, hmp, hsnap, hloop]
            rw [ht] at h
            rw [List.countP_cons, List.countP_cons, List.countP_append,
              ← hev, reuseEvents_countP_create_mkfs_zero env cfg 10 1 0 none _ hp_ns,
              finishRun_countP_zero env cfg _ v false Event.isCreateVolumeNoSnap
                (by intro d r vv ok; rfl) (by intro d m ok; rfl)] at h
            simp [Event.isCreateVolumeNoSnap] at h
          | none =>
            have ho : (runAsgEbs env cfg).1 =
                (createPath env cfg ("/dev/" ++ cfg.attachAs) none ac).1 := by
              simp [runAsgEbs, hdev, hmp, hsnap, hloop]
            have ht : (runAsgEbs env cfg).2 =
                Event.checkDevice ("/dev/" ++ cfg.attachAs) true ::
                Event.checkMountPoint cfg.mountPoint true ::
                (evs ++ (createPath env cfg ("/dev/" ++ cfg.attachAs) none ac).2) := by
              simp [runAsgEbs, hdev, hmp, hsnap, hloop]
            rw [ho] at hsucc
            rw [ht]
            rw [List.countP_cons, List.countP_cons, List.countP_append]
            have := createPath_none_success_mkfs_pos env cfg ("/dev/" ++ cfg.attachAs) ac hsucc
            omega
      · cases hfs : env.findSnapshotRes with
        | error e =>
          have ho : (runAsgEbs env cfg).1 = .fatal := by
            simp [runAsgEbs, hdev, hmp, hsnap, hfs]
          rw [ho] at hsucc
          exact absurd hsucc (by simp)
        | ok s =>
          cases s with
          | none =>
            have ho : (runAsgEbs env cfg).1 =
                (createPath env cfg ("/dev/" ++ cfg.attachAs) none 0).1 := by
              simp [runAsgEbs, hdev, hmp, hsnap, hfs]
            have ht : (runAsgEbs env cfg).2 =
                Event.checkDevice ("/dev/" ++ cfg.attachAs) true ::
                Event.checkMountPoint cfg.mountPoint true ::
                Event.findSnapshot "Name" cfg.snapshotName (.ok none) ::
                (createPath env cfg ("/dev/" ++ cfg.attachAs) none 0).2 := by
              simp [runAsgEbs, hdev, hmp, hsnap, hfs]
            rw [ho] at hsucc
            rw [ht]
            rw [List.countP_cons, List.countP_cons, List.countP_cons]
            have := createPath_none_success_mkfs_pos env cfg ("/dev/" ++ cfg.attachAs) 0 hsucc
            omega
          | some ss =>
            have ht : (runAsgEbs env cfg).2 =
                Event.checkDevice ("/dev/" ++ cfg.attachAs) true ::
                Event.checkMountPoint cfg.mountPoint true ::
                Event.findSnapshot "Name" cfg.snapshotName (.ok (some ss)) ::
                (createPath env cfg ("/dev/" ++ cfg.attachAs) (some ss) 0).2 := by
              simp [runAsgEbs, hdev, hmp, hsnap, hfs]
            rw [ht] at h
            rw [List.countP_cons, List.countP_cons, List.countP_cons,
              createPath_some_countP_noSnap_zero] at h
            simp [Event.isCreateVolumeNoSnap] at h

/-- C3 counterexample: a run that reaches the creation path and calls
`createVolume` with no snapshot id, but in which the attach of the fresh
volume fails, terminates fatally without ever invoking `makeFileSystem` —
so, as stated (for *every* run reaching the creation path), the claim that
`makeFileSystem` is invoked is false. -/
theorem creation_path_attach_failure_skips_format :
    0 < ((runAsgEbs attachFailEnv reuseCfg).2).countP Event.isCreateVolumeNoSnap ∧
    ((runAsgEbs attachFailEnv reuseCfg).2).countP Event.isMakeFileSystem = 0 ∧
    (runAsgEbs attachFailEnv reuseCfg).1 = .fatal := by
  decide

/-- C3 (amended): the created volume's `filesystem` tag and the format step
agree with snapshot usage — `createVolume` with no snapshot id applies
`filesystem`="false" at creation and `createVolume` with a snapshot id
applies `filesystem`="true"; a run whose trace holds a snapshot-restoring
`createVolume` never invokes `makeFileSystem`; a run whose trace holds a
blank `createVolume` invokes `makeFileSystem` provided the run does not
terminate fatally before the format step (equivalently, in every successful
run); and `makeFileSystem` sets `filesystem`="true" via `CreateTags` only
after a successful format, issuing no tag request when `mkfs` fails. -/
theorem filesystem_tag_and_format_agree_with_snapshot_usage :
    (∀ (aws : AwsEnv) (az : String) (size : Int) (name vt : String)
        (extra : List (String × String)) (vid : String),
      aws.createVolumeRes = .ok vid →
        AwsCall.createTagsCall vid ([("Name", name), ("filesystem", "false")] ++ extra)
          ∈ (AwsAsgEbs.createVolume aws az size name vt extra none).2) ∧
    (∀ (aws : AwsEnv) (az : String) (size : Int) (name vt : String)
        (extra : List (String × String)) (s vid : String),
      aws.createVolumeRes = .ok vid →
        AwsCall.createTagsCall vid ([("Name", name), ("filesystem", "true")] ++ extra)
          ∈ (AwsAsgEbs.createVolume aws az size name vt extra (some s)).2) ∧
    (∀ (env : Env) (cfg : Config),
      0 < ((runAsgEbs env cfg).2).countP Event.isCreateVolumeWithSnap →
      ((runAsgEbs env cfg).2).countP Event.isMakeFileSystem = 0) ∧
    (∀ (env : Env) (cfg : Config),
      (runAsgEbs env cfg).1 = .success →
      0 < ((runAsgEbs env cfg).2).countP Event.isCreateVolumeNoSnap →
      0 < ((runAsgEbs env cfg).2).countP Event.isMakeFileSystem) ∧
    (∀ (aws : AwsEnv) (dev : String) (ratio : Int) (vid : String),
      aws.mkfsOk = false →
        AwsAsgEbs.makeFileSystem aws dev ratio vid = (true, [AwsCall.runMkfs dev ratio])) ∧
    (∀ (aws : AwsEnv) (dev : String) (ratio : Int) (vid : String),
      aws.mkfsOk = true →
        AwsAsgEbs.makeFileSystem aws dev ratio vid =
          (!aws.createTagsOk,
           [AwsCall.runMkfs dev ratio,
            AwsCall.createTagsCall vid [("filesystem", "true")]])) := by
  refine ⟨?_, ?_, runAsgEbs_withSnap_no_mkfs, runAsgEbs_success_noSnap_mkfs, ?_, ?_⟩
  · intro aws az size name vt extra vid hres
    simp [AwsAsgEbs.createVolume, hres]
  · intro aws az size name vt extra s vid hres
    simp [AwsAsgEbs.createVolume, hres]
  · intro aws dev ratio vid hm
    simp [AwsAsgEbs.makeFileSystem, hm]
  · intro aws dev ratio vid hm
    simp [AwsAsgEbs.makeFileSystem, hm]

/-- C3 witness: concrete instances — a snapshot-branch run restores from a
snapshot and never formats; an ordinary create run (successful, no snapshot)
does format; and a concrete blank `createVolume` call tags
`filesystem`="false" at creation. -/
theorem filesystem_tag_and_format_agree_witness :
    ((runAsgEbs { createEnv with findSnapshotRes := .ok (some "snap-1") }
        { reuseCfg with snapshotName := "nightly-backup" }).2).countP
      Event.isMakeFileSystem = 0 ∧
    0 < ((runAsgEbs createEnv reuseCfg).2).countP Event.isMakeFileSystem ∧
    AwsCall.createTagsCall "vol-new" [("Name", "data-vol"), ("filesystem", "false")]
      ∈ (AwsAsgEbs.createVolume ⟨.ok "vol-new", true, true⟩ "us-east-1a" 20
          "data-vol" "gp2" [] none).2 :=
  ⟨filesystem_tag_and_format_agree_with_snapshot_usage.2.2.1
      { createEnv with findSnapshotRes := .ok (some "snap-1") }
      { reuseCfg with snapshotName := "nightly-backup" } (by decide),
   filesystem_tag_and_format_agree_with_snapshot_usage.2.2.2.1
      createEnv reuseCfg (by decide) (by decide),
   filesystem_tag_and_format_agree_with_snapshot_usage.1
      ⟨.ok "vol-new", true, true⟩ "us-east-1a" 20 "data-vol" "gp2" [] "vol-new" rfl⟩

/-- C1: in a reuse-branch run in which all ten iterations find an eligible
volume and every attach attempt fails, the code does *not* fall back to the
creation path: the Go variable `volumeId` still holds the last found (never
attached) volume after the loop, so `createVolume` is never invoked and the
run proceeds directly to mounting the never-attached device. -/
theorem reuse_exhaustion_skips_creation_path :
    ((runAsgEbs contendedEnv reuseCfg).2).countP Event.isFindVolume = 10 ∧
    ((runAsgEbs contendedEnv reuseCfg).2).countP Event.isAttachVolume = 10 ∧
    ((runAsgEbs contendedEnv reuseCfg).2).countP Event.isSuccessfulAttach = 0 ∧
    ((runAsgEbs contendedEnv reuseCfg).2).countP Event.isCreateVolume = 0 ∧
    ((runAsgEbs contendedEnv reuseCfg).2).countP Event.isMakeFileSystem = 0 ∧
    Event.mountVolume "/dev/xvdb" "/data" true ∈ (runAsgEbs contendedEnv reuseCfg).2 := by
  decide

end AsgEbs
